import Mathlib

/-!
# Verification of the geotag EXIF application (src/app.py)

This file gives a shallow embedding of the coordinate-text parser and the
EXIF GPS encoder/decoder of `src/app.py`, and settles the frozen claims
about them.  Python floats are modelled as exact rationals (`ℚ`); Python
`int()` truncation and `round()` (round-half-to-even) are modelled
explicitly; Python exceptions are modelled with `Except String`.
-/

/-- Python `int(q)` on a float: truncation toward zero. -/
def pyInt (q : ℚ) : ℤ :=
  if 0 ≤ q then ⌊q⌋ else -⌊-q⌋

/-- Python `round(q)` on a float: round half to even (banker's rounding). -/
def pyRound (q : ℚ) : ℤ :=
  if q - (⌊q⌋ : ℚ) < 1/2 then ⌊q⌋
  else if 1/2 < q - (⌊q⌋ : ℚ) then ⌊q⌋ + 1
  else if ⌊q⌋ % 2 = 0 then ⌊q⌋ else ⌊q⌋ + 1

/-- Python `round(q, 7)`: round to 7 decimal digits (used by the Parse
button handler, `round(lat_p, 7)`). -/
def pyRound7 (q : ℚ) : ℚ :=
  (pyRound (q * 10^7) : ℚ) / 10^7

/-- The characters Python's `\s` / `str.strip()` treat as whitespace
(ASCII range; the inputs of interest are ASCII). -/
def pyIsSpace (c : Char) : Bool :=
  c = ' ' ∨ c = Char.ofNat 9 ∨ c = Char.ofNat 10 ∨ c = Char.ofNat 13 ∨
    c = Char.ofNat 11 ∨ c = Char.ofNat 12

/-- Python `str.strip()` on a list of characters. -/
def pyStrip (cs : List Char) : List Char :=
  ((cs.dropWhile pyIsSpace).reverse.dropWhile pyIsSpace).reverse

/-- Value of a digit run, read in base 10. -/
def digitsToNat (ds : List Char) : ℕ :=
  ds.foldl (fun a c => a * 10 + (c.toNat - 48)) 0

/-- The exact rational value of the decimal text `ip.fp` with `fl` fraction
digits (Python `float` of a matched group, modelled exactly). -/
def decimalVal (ip fp fl : ℕ) : ℚ :=
  (ip : ℚ) + (fp : ℚ) / 10 ^ fl

/-- Match the regex fragment `\d+(?:\.\d+)?` at the head of the input and
return the matched number (exact decimal value) and the rest.  The
quantifiers are greedy; for every context in which this fragment occurs in
`app.py` the following regex element can never match a digit or a dot, so
greedy matching without backtracking is equivalent. -/
def parseUNum (cs : List Char) : Option (ℚ × List Char) :=
  let ds := cs.takeWhile Char.isDigit
  if ds.isEmpty then none
  else
    let rest := cs.drop ds.length
    match rest with
    | '.' :: cs2 =>
      let fs := cs2.takeWhile Char.isDigit
      if fs.isEmpty then some (decimalVal (digitsToNat ds) 0 0, rest)
      else some (decimalVal (digitsToNat ds) (digitsToNat fs) fs.length,
                 cs2.drop fs.length)
    | _ => some (decimalVal (digitsToNat ds) 0 0, rest)

/-- Match `[-+]?\d+(?:\.\d+)?` at the head of the input (the signed float
groups of the decimal-pair and URL regexes); `float` of the matched text. -/
def parseSNum (cs : List Char) : Option (ℚ × List Char) :=
  match cs with
  | '-' :: cs2 => (parseUNum cs2).map (fun p => (-p.1, p.2))
  | '+' :: cs2 => parseUNum cs2
  | _ => parseUNum cs

/-- Dynamic Python values appearing in EXIF dictionaries. -/
inductive PyVal where
  | vInt : ℤ → PyVal
  | vFloat : ℚ → PyVal
  | vBytes : String → PyVal
  | vStr : String → PyVal
  | vTup : List PyVal → PyVal

/-- Python truthiness of the values above. -/
def pyTruthy : PyVal → Bool
  | .vInt n => decide (n ≠ 0)
  | .vFloat q => decide (q ≠ 0)
  | .vBytes s => decide (s ≠ "")
  | .vStr s => decide (s ≠ "")
  | .vTup xs => !xs.isEmpty

/-- A GPS IFD group: mapping from numeric tag to value (Python dict). -/
abbrev GpsGroup := List (ℕ × PyVal)

/-- A full EXIF container: mapping from group name to group. -/
abbrev ExifDict := List (String × GpsGroup)

/-- Python `dict.get`: value of the first (unique) matching key. -/
def dictGet {α β : Type} [DecidableEq α] : List (α × β) → α → Option β
  | [], _ => none
  | (k', v) :: rest, k => if k' = k then some v else dictGet rest k

/-- Whether a key is present. -/
def hasKey {α β : Type} [DecidableEq α] : List (α × β) → α → Bool
  | [], _ => false
  | (k', _) :: rest, k => if k' = k then true else hasKey rest k

/-- Python `d[k] = v`: replace the value at an existing key in place,
else append the new binding. -/
def dictSet {α β : Type} [DecidableEq α] (d : List (α × β)) (k : α) (v : β) :
    List (α × β) :=
  if hasKey d k then d.map (fun p => if p.1 = k then (k, v) else p)
  else d ++ [(k, v)]

/-! ## piexif GPS IFD tag constants -/

def GPSVersionID : ℕ := 0
def GPSLatitudeRef : ℕ := 1
def GPSLatitude : ℕ := 2
def GPSLongitudeRef : ℕ := 3
def GPSLongitude : ℕ := 4
def GPSAltitudeRef : ℕ := 5
def GPSAltitude : ℕ := 6
def GPSTimeStamp : ℕ := 7
def GPSDateStamp : ℕ := 29

/-! ## Encoder: `deg_to_dms_rational` and `build_gps_ifd` -/

/-- `d = int(abs(deg))` in `deg_to_dms_rational`. -/
def dms_d (deg : ℚ) : ℤ := pyInt |deg|

/-- `m_float = (abs(deg) - d) * 60`. -/
def dms_mfloat (deg : ℚ) : ℚ := (|deg| - (dms_d deg : ℚ)) * 60

/-- `m = int(m_float)`. -/
def dms_m (deg : ℚ) : ℤ := pyInt (dms_mfloat deg)

/-- `s = round((m_float - m) * 60 * 1000000)`. -/
def dms_s (deg : ℚ) : ℤ :=
  pyRound ((dms_mfloat deg - (dms_m deg : ℚ)) * 60 * 1000000)

/-- `deg_to_dms_rational(deg)` returns `((d, 1), (m, 1), (s, 1000000))`. -/
def deg_to_dms_rational (deg : ℚ) : (ℤ × ℤ) × (ℤ × ℤ) × (ℤ × ℤ) :=
  ((dms_d deg, 1), (dms_m deg, 1), (dms_s deg, 1000000))

/-- The triple of rationals as the Python value written into the IFD. -/
def dmsPyVal (deg : ℚ) : PyVal :=
  .vTup [.vTup [.vInt (dms_d deg), .vInt 1],
         .vTup [.vInt (dms_m deg), .vInt 1],
         .vTup [.vInt (dms_s deg), .vInt 1000000]]

/-- The decimal value `parse_gps` reconstructs from the stored triple
`deg_to_dms_rational deg`: `d + m/60 + s/3600` with each fraction divided
out by the decoder's `rat` helper. -/
def dmsBack (deg : ℚ) : ℚ :=
  (dms_d deg : ℚ) / ((1 : ℤ) : ℚ) + (dms_m deg : ℚ) / ((1 : ℤ) : ℚ) / 60 +
    (dms_s deg : ℚ) / ((1000000 : ℤ) : ℚ) / 3600

/-- A UTC instant as handed to `build_gps_ifd`.  The source first converts
`when` to UTC with `astimezone(timezone.utc)`; this structure models the
already-converted UTC field values used by `strftime` and the time triple. -/
structure UTCTime where
  year : ℕ
  month : ℕ
  day : ℕ
  hour : ℕ
  minute : ℕ
  second : ℕ

def pad2 (n : ℕ) : String := if n < 10 then "0" ++ toString n else toString n

def pad4 (n : ℕ) : String :=
  if n < 10 then "000" ++ toString n
  else if n < 100 then "00" ++ toString n
  else if n < 1000 then "0" ++ toString n
  else toString n

/-- `when_utc.strftime("%Y:%m:%d")`. -/
def strftimeDate (w : UTCTime) : String :=
  pad4 w.year ++ ":" ++ pad2 w.month ++ ":" ++ pad2 w.day

/-- `build_gps_ifd(lat, lon, alt, when)` (src/app.py lines 86-105): the dict
literal with version, refs and DMS triples, then the conditional altitude
and date/time assignments, in insertion order. -/
def build_gps_ifd (lat lon : ℚ) (alt : Option ℚ) (when : Option UTCTime) :
    GpsGroup :=
  let base : GpsGroup :=
    [(GPSVersionID, .vTup [.vInt 2, .vInt 3, .vInt 0, .vInt 0]),
     (GPSLatitudeRef, .vBytes (if lat ≥ 0 then "N" else "S")),
     (GPSLatitude, dmsPyVal lat),
     (GPSLongitudeRef, .vBytes (if lon ≥ 0 then "E" else "W")),
     (GPSLongitude, dmsPyVal lon)]
  let withAlt : GpsGroup :=
    match alt with
    | none => base
    | some a =>
      base ++ [(GPSAltitudeRef, .vInt (if a ≥ 0 then 0 else 1)),
               (GPSAltitude, .vTup [.vInt (pyInt (|a| * 100)), .vInt 100])]
  match when with
  | none => withAlt
  | some w =>
    withAlt ++ [(GPSDateStamp, .vStr (strftimeDate w)),
                (GPSTimeStamp, .vTup [.vTup [.vInt (w.hour : ℤ), .vInt 1],
                                      .vTup [.vInt (w.minute : ℤ), .vInt 1],
                                      .vTup [.vInt (w.second : ℤ), .vInt 1]])]

/-! ## Decoder: `parse_gps` -/

/-- Python subscript `x[i]` on the values above. -/
def pyIndex (x : PyVal) (i : ℕ) : Except String PyVal :=
  match x with
  | .vTup xs =>
    match xs.get? i with
    | some v => .ok v
    | none => .error "IndexError: tuple index out of range"
  | .vBytes s =>
    match s.data.get? i with
    | some c => .ok (.vInt (c.toNat : ℤ))
    | none => .error "IndexError: index out of range"
  | .vStr s =>
    match s.data.get? i with
    | some c => .ok (.vStr (String.singleton c))
    | none => .error "IndexError: string index out of range"
  | _ => .error "TypeError: object is not subscriptable"

/-- Numeric coercion used by the `/` operator. -/
def toNumber : PyVal → Except String ℚ
  | .vInt n => .ok (n : ℚ)
  | .vFloat q => .ok q
  | _ => .error "TypeError: unsupported operand type(s) for /"

/-- Python `a / b` on dynamic values (both must be numeric). -/
def pyDiv (a b : PyVal) : Except String ℚ :=
  match toNumber a, toNumber b with
  | .ok qa, .ok qb => .ok (qa / qb)
  | .error e, _ => .error e
  | _, .error e => .error e

/-- Python `float(s)` on a numeric string or bytes: strip whitespace, then
an optionally signed decimal literal consuming the whole string.  (The
exponent/`inf`/`nan` forms of the full grammar are never produced or
consumed by any EXIF value handled here.) -/
def pyFloatOfString (s : String) : Except String ℚ :=
  match parseSNum (pyStrip s.data) with
  | some (q, []) => .ok q
  | _ => .error "ValueError: could not convert string to float"

/-- Python `float(x)` on a dynamic value. -/
def pyFloat : PyVal → Except String ℚ
  | .vInt n => .ok (n : ℚ)
  | .vFloat q => .ok q
  | .vBytes s => pyFloatOfString s
  | .vStr s => pyFloatOfString s
  | .vTup _ =>
    .error "TypeError: float() argument must be a string or a real number, not tuple"

/-- The local helper `rat` of `parse_gps` (line 117-118):
`x[0]/x[1] if isinstance(x, tuple) and x[1] else float(x)`.
On a tuple, `x[1]` is evaluated first (IndexError on short tuples); a
truthy denominator leads to the division, anything else to `float(x)`. -/
def rat (x : PyVal) : Except String ℚ :=
  match x with
  | .vTup xs =>
    match xs.get? 1 with
    | none => .error "IndexError: tuple index out of range"
    | some x1 =>
      if pyTruthy x1 then
        match xs.get? 0 with
        | some x0 => pyDiv x0 x1
        | none => .error "IndexError: tuple index out of range"
      else pyFloat (.vTup xs)
  | _ => pyFloat x

/-- `rat(dms[i])`. -/
def ratIdx (v : PyVal) (i : ℕ) : Except String ℚ :=
  match pyIndex v i with
  | .ok w => rat w
  | .error e => .error e

/-- `ref in (b"S", b"W")`: bytes equality against `b"S"` / `b"W"`. -/
def isRefSW : PyVal → Bool
  | .vBytes s => decide (s = "S" ∨ s = "W")
  | _ => false

/-- The local helper `dms_to_deg(dms, ref)` of `parse_gps` (lines 119-126). -/
def dms_to_deg (dms : Option PyVal) (ref : PyVal) : Except String (Option ℚ) :=
  match dms with
  | none => .ok none
  | some v =>
    if pyTruthy v then
      match ratIdx v 0, ratIdx v 1, ratIdx v 2 with
      | .ok d, .ok m, .ok s =>
        let deg := d + m / 60 + s / 3600
        .ok (some (if isRefSW ref then -deg else deg))
      | .error e, _, _ => .error e
      | .ok _, .error e, _ => .error e
      | .ok _, .ok _, .error e => .error e
    else .ok none

/-- `alt = gps.get(GPSAltitude); alt = rat(alt) if alt else None`. -/
def altConv (altv : Option PyVal) : Except String (Option ℚ) :=
  match altv with
  | none => .ok none
  | some v =>
    if pyTruthy v then
      match rat v with
      | .ok q => .ok (some q)
      | .error e => .error e
    else .ok none

/-- Result dictionary of `parse_gps` (`{"lat":…, "lon":…, "alt":…,
"date":…, "time":…}`, each value possibly `None`). -/
structure Decoded where
  lat : Option ℚ
  lon : Option ℚ
  alt : Option ℚ
  date : Option PyVal
  time : Option PyVal

/-- `date.decode(errors="ignore")` when the date stamp is bytes. -/
def decodeDate : Option PyVal → Option PyVal
  | some (.vBytes s) => some (.vStr s)
  | other => other

/-- `parse_gps(exif_dict)` (src/app.py lines 113-135), with Python
exceptions modelled by `Except.error`. -/
def parse_gps (exif_dict : ExifDict) : Except String Decoded :=
  let gps := (dictGet exif_dict "GPS").getD []
  if gps.isEmpty then
    .ok ⟨none, none, none, none, none⟩
  else
    match dms_to_deg (dictGet gps GPSLatitude)
        ((dictGet gps GPSLatitudeRef).getD (.vBytes "?")) with
    | .error e => .error e
    | .ok lat =>
      match dms_to_deg (dictGet gps GPSLongitude)
          ((dictGet gps GPSLongitudeRef).getD (.vBytes "?")) with
      | .error e => .error e
      | .ok lon =>
        match altConv (dictGet gps GPSAltitude) with
        | .error e => .error e
        | .ok alt =>
          .ok ⟨lat, lon, alt, decodeDate (dictGet gps GPSDateStamp),
               dictGet gps GPSTimeStamp⟩

/-- The EXIF-container transformation of `process_file` (lines 160-161):
start from the pre-existing container when truthy (else a fresh empty
four-group container) and assign the freshly built GPS group wholesale. -/
def emptyContainer : ExifDict :=
  [("0th", []), ("Exif", []), ("GPS", []), ("1st", [])]

def process_file_exif (exif_before : ExifDict) (gps_new : GpsGroup) : ExifDict :=
  let exif_dict := if exif_before.isEmpty then emptyContainer else exif_before
  dictSet exif_dict "GPS" gps_new

/-! ## Coordinate-text parsers (src/app.py lines 14-76)

Each regex of the source is implemented as a recursive matcher over the
character list, following Python `re` semantics (leftmost match for
`re.search`, anchored match for `re.match`, greedy quantifiers; the one
place where a greedy `\s*` needs backtracking — before the `[, ]` class of
the decimal-pair separator — is handled explicitly). -/

/-- The apostrophe character (minutes mark of the DMS grammar). -/
def minuteMark : Char := Char.ofNat 39

/-- The double-quote character (seconds mark of the DMS grammar). -/
def secondMark : Char := Char.ofNat 34

/-- Backtracking for `\s*[, ]\s*` after a first number: try taking `j`
whitespace characters for the leading `\s*` (from the greedy maximum down
to zero), then one comma-or-space, then greedy trailing `\s*`. -/
def sepSearch (cs : List Char) : ℕ → Option (List Char)
  | 0 =>
    match cs.head? with
    | some c =>
      if c = ',' ∨ c = ' ' then some ((cs.drop 1).dropWhile pyIsSpace) else none
    | none => none
  | j + 1 =>
    match (cs.drop (j + 1)).head? with
    | some c =>
      if c = ',' ∨ c = ' ' then some ((cs.drop (j + 2)).dropWhile pyIsSpace)
      else sepSearch cs j
    | none => sepSearch cs j

/-- Match `([-+]?\d+(?:\.\d+)?)\s*[, ]\s*([-+]?\d+(?:\.\d+)?)` anchored at
the head of the input. -/
def decPairHere (cs : List Char) : Option (ℚ × ℚ) :=
  match parseSNum cs with
  | none => none
  | some (a, r1) =>
    match sepSearch r1 (r1.takeWhile pyIsSpace).length with
    | none => none
    | some r2 =>
      match parseSNum r2 with
      | none => none
      | some (b, _) => some (a, b)

/-- `re.search` scan: try the anchored match at each position, leftmost
first. -/
def decPairSearch : List Char → Option (ℚ × ℚ)
  | [] => none
  | cs@(_ :: rest) =>
    match decPairHere cs with
    | some p => some p
    | none => decPairSearch rest

/-- `_parse_decimal_pair(text)` (lines 14-19). -/
def _parse_decimal_pair (text : String) : Option (ℚ × ℚ) :=
  decPairSearch text.data

/-- Match `([-+]?\d+(?:\.\d+)?),\s*([-+]?\d+(?:\.\d+)?)` anchored at the
head (the part after the `@` / `q=` marker of the URL regexes). -/
def urlPairHere (cs : List Char) : Option (ℚ × ℚ) :=
  match parseSNum cs with
  | none => none
  | some (a, r1) =>
    match r1 with
    | ',' :: r2 =>
      match parseSNum (r2.dropWhile pyIsSpace) with
      | none => none
      | some (b, _) => some (a, b)
    | _ => none

/-- Scan for `@lat,lon` (first URL pattern, line 23). -/
def atSearch : List Char → Option (ℚ × ℚ)
  | [] => none
  | c :: rest =>
    if c = '@' then
      match urlPairHere rest with
      | some p => some p
      | none => atSearch rest
    else atSearch rest

/-- Scan for `[?&]q=lat,lon` (second URL pattern, line 27). -/
def qSearch : List Char → Option (ℚ × ℚ)
  | [] => none
  | c :: rest =>
    if c = '?' ∨ c = '&' then
      match rest with
      | 'q' :: '=' :: r2 =>
        match urlPairHere r2 with
        | some p => some p
        | none => qSearch rest
      | _ => qSearch rest
    else qSearch rest

/-- `_parse_google_maps_url(text)` (lines 21-30): `@` pattern first, then
the `q=` query pattern. -/
def _parse_google_maps_url (text : String) : Option (ℚ × ℚ) :=
  match atSearch text.data with
  | some p => some p
  | none => qSearch text.data

/-- `_dms_token(tok)` (lines 32-40): strip, then `re.match` against
`(\d+(?:\.\d+)?)°\s*(\d+(?:\.\d+)?)'\s*(\d+(?:\.\d+)?)"?\s*([NSEW])?`
case-insensitively; returns degrees, minutes, seconds and the upper-cased
hemisphere letter (empty string when absent, `m.group(4) or ''`). -/
def _dms_token (tok : List Char) : Option (ℚ × ℚ × ℚ × String) :=
  let t := pyStrip tok
  match parseUNum t with
  | none => none
  | some (d, r1) =>
    match r1 with
    | c1 :: r2 =>
      if c1 = '°' then
        match parseUNum (r2.dropWhile pyIsSpace) with
        | none => none
        | some (m, r3) =>
          match r3 with
          | c2 :: r4 =>
            if c2 = minuteMark then
              match parseUNum (r4.dropWhile pyIsSpace) with
              | none => none
              | some (s, r5) =>
                let r6 := match r5 with
                  | c3 :: r5' => if c3 = secondMark then r5' else r5
                  | [] => r5
                let r7 := r6.dropWhile pyIsSpace
                let ref := match r7.head? with
                  | some c =>
                    if c = 'N' ∨ c = 'S' ∨ c = 'E' ∨ c = 'W' ∨
                       c = 'n' ∨ c = 's' ∨ c = 'e' ∨ c = 'w' then
                      String.singleton c.toUpper
                    else ""
                  | none => ""
                some (d, m, s, ref)
            else none
          | [] => none
      else none
    | [] => none

/-- `_dms_to_decimal(d, m, s, ref)` (lines 42-46). -/
def _dms_to_decimal (d m s : ℚ) (ref : String) : ℚ :=
  let val := d + m / 60 + s / 3600
  if ref = "S" ∨ ref = "W" then -val else val

/-- One separator of `re.split(r'\s*[;,]\s*|\s{2,}', …)`: the first
alternative (optional whitespace, one `;` or `,`, optional whitespace) is
preferred; otherwise a run of two or more whitespace characters.  Returns
the rest after the separator. -/
def splitSepHere (cs : List Char) : Option (List Char) :=
  match cs.dropWhile pyIsSpace with
  | c :: rest =>
    if c = ';' ∨ c = ',' then some (rest.dropWhile pyIsSpace)
    else if 2 ≤ (cs.takeWhile pyIsSpace).length then
      some (cs.dropWhile pyIsSpace)
    else none
  | [] =>
    if 2 ≤ cs.length then some [] else none

/-- `re.split` scan (fuelled; every separator consumes at least one
character, so fuel `length + 1` always suffices). -/
def splitGo : ℕ → List Char → List Char → List (List Char)
  | 0, cur, cs => [cur.reverse ++ cs]
  | _ + 1, cur, [] => [cur.reverse]
  | fuel + 1, cur, cs@(c :: rest) =>
    match splitSepHere cs with
    | some after => cur.reverse :: splitGo fuel [] after
    | none => splitGo fuel (c :: cur) rest

/-- `re.split(r'\s*[;,]\s*|\s{2,}', text)`. -/
def splitSep (cs : List Char) : List (List Char) :=
  splitGo (cs.length + 1) [] cs

/-- `_parse_dms(text)` (lines 48-62): split into candidate tokens, keep
those matching the DMS token pattern, take the first two as latitude and
longitude, apply the sequential default-reference rules, convert. -/
def _parse_dms (text : String) : Option (ℚ × ℚ) :=
  let parts := splitSep (pyStrip text.data)
  let candidates := parts.filter (fun p => (_dms_token p).isSome)
  match candidates with
  | c0 :: c1 :: _ =>
    match _dms_token c0, _dms_token c1 with
    | some (lat_d, lat_m, lat_s, lat_ref0), some (lon_d, lon_m, lon_s, lon_ref0) =>
      let lat_ref := if lat_ref0 = "" ∧ lon_ref0 ≠ "" then "N" else lat_ref0
      let lon_ref := if lon_ref0 = "" ∧ lat_ref ≠ "" then "E" else lon_ref0
      let lat := _dms_to_decimal lat_d lat_m lat_s
        (if lat_ref = "" then "N" else lat_ref)
      let lon := _dms_to_decimal lon_d lon_m lon_s
        (if lon_ref = "" then "E" else lon_ref)
      some (lat, lon)
    | _, _ => none
  | _ => none

/-- `smart_parse_coords(text)` (lines 64-76): empty check, then the three
recognition rules in priority order; a `ValueError` when nothing matches.
(The Python messages contain punctuation excluded here; the distinct
error strings keep the two failure modes apart.) -/
def smart_parse_coords (text : String) : Except String (ℚ × ℚ) :=
  if (pyStrip text.data).isEmpty then .error "ValueError: Cadena vacia."
  else
    match _parse_google_maps_url text with
    | some p => .ok p
    | none =>
      match _parse_decimal_pair text with
      | some p => .ok p
      | none =>
        match _parse_dms text with
        | some p => .ok p
        | none => .error "ValueError: No se pudieron extraer coordenadas."

/-- The Parse-button handler (lines 189-195): parse, validate the ranges,
then store the pair rounded to 7 decimals. -/
def parse_button (text : String) : Except String (ℚ × ℚ) :=
  match smart_parse_coords text with
  | .error e => .error e
  | .ok (lat_p, lon_p) =>
    if ¬(-90 ≤ lat_p ∧ lat_p ≤ 90 ∧ -180 ≤ lon_p ∧ lon_p ≤ 180) then
      .error "ValueError: Fuera de rango."
    else .ok (pyRound7 lat_p, pyRound7 lon_p)

/-- The DMS pair of the spec example (and of the source comment on line 49,
minus hemisphere letters): `50°49'44.9" 4°22'13.9"` with a SINGLE space
between the two tokens. -/
def dmsPairSingleSpace : String :=
  "50°49" ++ String.singleton minuteMark ++ "44.9" ++
    String.singleton secondMark ++ " 4°22" ++ String.singleton minuteMark ++
    "13.9" ++ String.singleton secondMark

/-- The same DMS pair with two spaces between the tokens (which the
splitting regex `\s*[;,]\s*|\s{2,}` does recognize as a separator). -/
def dmsPairDoubleSpace : String :=
  "50°49" ++ String.singleton minuteMark ++ "44.9" ++
    String.singleton secondMark ++ "  4°22" ++ String.singleton minuteMark ++
    "13.9" ++ String.singleton secondMark

/-! ## Arithmetic lemmas about the Python primitives -/

lemma pyInt_of_nonneg {q : ℚ} (h : 0 ≤ q) : pyInt q = ⌊q⌋ := by
  rw [pyInt, if_pos h]

lemma pyInt_nonneg {q : ℚ} (h : 0 ≤ q) : 0 ≤ pyInt q := by
  rw [pyInt_of_nonneg h]
  exact Int.floor_nonneg.2 h

lemma pyRound_sub_le_half (q : ℚ) : |(pyRound q : ℚ) - q| ≤ 1/2 := by
  have h0 : (⌊q⌋ : ℚ) ≤ q := Int.floor_le q
  have h1 : q < ⌊q⌋ + 1 := Int.lt_floor_add_one q
  rw [pyRound]
  split_ifs with ha hb hc <;> rw [abs_le] <;> constructor <;> push_cast <;>
    linarith

lemma int_le_pyRound {n : ℤ} {q : ℚ} (h : (n : ℚ) ≤ q) : n ≤ pyRound q := by
  have hfl : n ≤ ⌊q⌋ := Int.le_floor.2 h
  rw [pyRound]
  split_ifs <;> omega

lemma pyRound_le_int {n : ℤ} {q : ℚ} (h : q ≤ (n : ℚ)) : pyRound q ≤ n := by
  have hfl : ⌊q⌋ ≤ n := by
    have := Int.floor_le_floor h
    simpa using this
  rw [pyRound]
  split_ifs with ha hb hc
  · exact hfl
  · rcases lt_or_eq_of_le hfl with hlt | heq
    · omega
    · exfalso
      rw [heq] at hb
      have : q ≤ ⌊q⌋ := by rw [heq]; exact_mod_cast h
      linarith [Int.floor_le q]
  · exact hfl
  · rcases lt_or_eq_of_le hfl with hlt | heq
    · omega
    · exfalso
      push_neg at ha
      have : q ≤ ⌊q⌋ := by rw [heq]; exact_mod_cast h
      linarith [Int.floor_le q]

lemma pyRound_nonneg {q : ℚ} (h : 0 ≤ q) : 0 ≤ pyRound q :=
  int_le_pyRound (by exact_mod_cast h)

lemma pyRound7_le_int {B : ℤ} {q : ℚ} (h : q ≤ (B : ℚ)) : pyRound7 q ≤ (B : ℚ) := by
  rw [pyRound7, div_le_iff (by norm_num : (0:ℚ) < 10^7)]
  have hb : pyRound (q * 10^7) ≤ B * 10^7 :=
    pyRound_le_int (by push_cast; nlinarith)
  calc ((pyRound (q * 10^7) : ℚ)) ≤ ((B * 10^7 : ℤ) : ℚ) := by exact_mod_cast hb
    _ = (B : ℚ) * 10^7 := by push_cast; ring

lemma int_le_pyRound7 {B : ℤ} {q : ℚ} (h : (B : ℚ) ≤ q) : (B : ℚ) ≤ pyRound7 q := by
  rw [pyRound7, le_div_iff (by norm_num : (0:ℚ) < 10^7)]
  have hb : B * 10^7 ≤ pyRound (q * 10^7) :=
    int_le_pyRound (by push_cast; nlinarith)
  calc (B : ℚ) * 10^7 = ((B * 10^7 : ℤ) : ℚ) := by push_cast; ring
    _ ≤ (pyRound (q * 10^7) : ℚ) := by exact_mod_cast hb

/-! ## Decode of encode: characterization and round-trip bound -/

lemma dms_to_deg_dmsPyVal (deg : ℚ) (ref : PyVal) :
    dms_to_deg (some (dmsPyVal deg)) ref =
      .ok (some (if isRefSW ref then -dmsBack deg else dmsBack deg)) := rfl

/-- Decoding the stored triple recovers the magnitude to within half a
microsecond of arc. -/
lemma dmsBack_close (deg : ℚ) : |dmsBack deg - abs deg| ≤ 1 / 7200000000 := by
  have hA : (0:ℚ) ≤ |deg| := abs_nonneg deg
  have hd : dms_d deg = ⌊|deg|⌋ := pyInt_of_nonneg hA
  have hmf0 : 0 ≤ dms_mfloat deg := by
    rw [dms_mfloat, hd]
    have := Int.floor_le |deg|
    nlinarith
  have hm : dms_m deg = ⌊dms_mfloat deg⌋ := pyInt_of_nonneg hmf0
  have hs : |(dms_s deg : ℚ) - (dms_mfloat deg - (dms_m deg : ℚ)) * 60 * 1000000|
      ≤ 1/2 := pyRound_sub_le_half _
  have key : dmsBack deg - |deg| =
      ((dms_s deg : ℚ) - (dms_mfloat deg - (dms_m deg : ℚ)) * 60 * 1000000)
        / 3600000000 := by
    have e1 : |deg| = (dms_d deg : ℚ) + dms_mfloat deg / 60 := by
      rw [dms_mfloat]; ring
    rw [dmsBack, e1]
    push_cast
    ring
  rw [key, abs_div, abs_of_pos (by norm_num : (0:ℚ) < 3600000000)]
  rw [div_le_iff (by norm_num : (0:ℚ) < 3600000000)]
  calc |(dms_s deg : ℚ) - (dms_mfloat deg - (dms_m deg : ℚ)) * 60 * 1000000|
      ≤ 1/2 := hs
    _ = 1 / 7200000000 * 3600000000 := by norm_num

/-- Full characterization of `parse_gps` on a container whose GPS group
was just produced by `build_gps_ifd` (no timestamp). -/
lemma parse_gps_build (lat lon : ℚ) (alt : Option ℚ) :
    parse_gps [("GPS", build_gps_ifd lat lon alt none)] =
      .ok ⟨some (if lat ≥ 0 then dmsBack lat else -dmsBack lat),
           some (if lon ≥ 0 then dmsBack lon else -dmsBack lon),
           alt.map (fun a => ((pyInt (|a| * 100) : ℤ) : ℚ) / ((100 : ℤ) : ℚ)),
           none, none⟩ := by
  rcases alt with _ | a <;>
    by_cases hlat : lat ≥ 0 <;> by_cases hlon : lon ≥ 0 <;>
      simp [parse_gps, build_gps_ifd, dmsPyVal, dictGet, dms_to_deg, ratIdx,
            pyIndex, rat, pyDiv, toNumber, pyTruthy, isRefSW, altConv,
            decodeDate, dmsBack, hlat, hlon, GPSVersionID, GPSLatitudeRef,
            GPSLatitude, GPSLongitudeRef, GPSLongitude, GPSAltitudeRef,
            GPSAltitude, GPSTimeStamp, GPSDateStamp]

/-! ## Dictionary lemmas (for the container-update claim) -/

lemma dictGet_cons {α β : Type} [DecidableEq α] (a : α) (b : β)
    (tl : List (α × β)) (k : α) :
    dictGet ((a, b) :: tl) k = if a = k then some b else dictGet tl k := rfl

lemma hasKey_cons {α β : Type} [DecidableEq α] (a : α) (b : β)
    (tl : List (α × β)) (k : α) :
    hasKey ((a, b) :: tl) k = if a = k then true else hasKey tl k := rfl

lemma dictGet_map_set {α β : Type} [DecidableEq α] (d : List (α × β)) (k : α)
    (v : β) (h : hasKey d k = true) :
    dictGet (d.map (fun p => if p.1 = k then (k, v) else p)) k = some v := by
  induction d with
  | nil => simp [hasKey] at h
  | cons hd tl ih =>
    obtain ⟨a, b⟩ := hd
    rw [List.map_cons]
    by_cases hk : a = k
    · rw [if_pos hk, dictGet_cons, if_pos rfl]
    · rw [hasKey_cons, if_neg hk] at h
      rw [if_neg hk, dictGet_cons, if_neg hk]
      exact ih h

lemma dictGet_append_last {α β : Type} [DecidableEq α] (d : List (α × β))
    (k : α) (v : β) : dictGet (d ++ [(k, v)]) k = some v ∨
      ∃ w, dictGet (d ++ [(k, v)]) k = some w ∧ dictGet d k = some w := by
  induction d with
  | nil => left; simp [dictGet_cons]
  | cons hd tl ih =>
    obtain ⟨a, b⟩ := hd
    rw [List.cons_append, dictGet_cons, dictGet_cons]
    by_cases hk : a = k
    · right
      exact ⟨b, by rw [if_pos hk], by rw [if_pos hk]⟩
    · rw [if_neg hk, if_neg hk]
      exact ih

lemma dictGet_append_last_of_absent {α β : Type} [DecidableEq α]
    (d : List (α × β)) (k : α) (v : β) (h : hasKey d k = false) :
    dictGet (d ++ [(k, v)]) k = some v := by
  induction d with
  | nil => simp [dictGet_cons]
  | cons hd tl ih =>
    obtain ⟨a, b⟩ := hd
    rw [hasKey_cons] at h
    by_cases hk : a = k
    · rw [if_pos hk] at h
      exact absurd h (by simp)
    · rw [if_neg hk] at h
      rw [List.cons_append, dictGet_cons, if_neg hk]
      exact ih h

lemma dictGet_dictSet_self {α β : Type} [DecidableEq α] (d : List (α × β))
    (k : α) (v : β) : dictGet (dictSet d k v) k = some v := by
  rw [dictSet]
  by_cases h : hasKey d k
  · rw [if_pos h]
    exact dictGet_map_set d k v h
  · rw [if_neg h]
    exact dictGet_append_last_of_absent d k v (by simpa using h)

lemma dictGet_dictSet_ne {α β : Type} [DecidableEq α] (d : List (α × β))
    (k k' : α) (v : β) (h : k' ≠ k) :
    dictGet (dictSet d k v) k' = dictGet d k' := by
  rw [dictSet]
  by_cases hk : hasKey d k
  · rw [if_pos hk]
    clear hk
    induction d with
    | nil => simp
    | cons hd tl ih =>
      obtain ⟨a, b⟩ := hd
      rw [List.map_cons, dictGet_cons]
      by_cases h2 : a = k
      · rw [if_pos h2, dictGet_cons, if_neg (Ne.symm h), if_neg]
        · exact ih
        · rw [h2]; exact Ne.symm h
      · rw [if_neg h2, dictGet_cons]
        by_cases h3 : a = k'
        · rw [if_pos h3, if_pos h3]
        · rw [if_neg h3, if_neg h3]
          exact ih
  · rw [if_neg hk]
    clear hk
    induction d with
    | nil => simp [dictGet_cons, Ne.symm h]
    | cons hd tl ih =>
      obtain ⟨a, b⟩ := hd
      rw [List.cons_append, dictGet_cons, dictGet_cons]
      by_cases h3 : a = k'
      · rw [if_pos h3, if_pos h3]
      · rw [if_neg h3, if_neg h3]
        exact ih

/-! ## Evaluation helpers for concrete inputs

`ℚ` arithmetic (and `⌊⌋` on `ℚ`) does not reduce definitionally, so
concrete values of the encoder/decoder are established through `norm_num`
with the following lemmas rather than by kernel evaluation. -/

lemma dmsBack_eval {deg A : ℚ} {d m s : ℤ}
    (hA : |deg| = A) (hd : ⌊A⌋ = d) (hm : ⌊(A - (d : ℚ)) * 60⌋ = m)
    (hs : pyRound (((A - (d : ℚ)) * 60 - (m : ℚ)) * 60 * 1000000) = s) :
    dmsBack deg = (d : ℚ) + (m : ℚ) / 60 + (s : ℚ) / 1000000 / 3600 := by
  have h0 : (0:ℚ) ≤ A := hA ▸ abs_nonneg deg
  have hd' : dms_d deg = d := by
    rw [dms_d, hA, pyInt_of_nonneg h0, hd]
  have hmf : dms_mfloat deg = (A - (d : ℚ)) * 60 := by
    rw [dms_mfloat, hd', hA]
  have hmf0 : 0 ≤ dms_mfloat deg := by
    rw [hmf]
    have h1 : (d : ℚ) ≤ A := by
      rw [← hd]; exact Int.floor_le A
    nlinarith
  have hm' : dms_m deg = m := by
    rw [dms_m, pyInt_of_nonneg hmf0, hmf, hm]
  have hs' : dms_s deg = s := by
    rw [dms_s, hmf, hm', hs]
  rw [dmsBack, hd', hm', hs']
  push_cast
  ring

lemma build_gps_ifd_altRef (lat lon a : ℚ) :
    dictGet (build_gps_ifd lat lon (some a) none) GPSAltitudeRef =
      some (.vInt (if a ≥ 0 then 0 else 1)) := rfl

lemma build_gps_ifd_alt (lat lon a : ℚ) :
    dictGet (build_gps_ifd lat lon (some a) none) GPSAltitude =
      some (.vTup [.vInt (pyInt (|a| * 100)), .vInt 100]) := rfl

lemma build_gps_ifd_latRef (lat lon : ℚ) (alt : Option ℚ) :
    dictGet (build_gps_ifd lat lon alt none) GPSLatitudeRef =
      some (.vBytes (if lat ≥ 0 then "N" else "S")) := by
  cases alt <;> rfl

lemma build_gps_ifd_lonRef (lat lon : ℚ) (alt : Option ℚ) :
    dictGet (build_gps_ifd lat lon alt none) GPSLongitudeRef =
      some (.vBytes (if lon ≥ 0 then "E" else "W")) := by
  cases alt <;> rfl

/-! ## Claim theorems -/

/-- C2: for every degree value, `deg_to_dms_rational deg` is exactly
`((d,1),(m,1),(s,1000000))` with `d = ⌊|deg|⌋`, `m = ⌊(|deg|-d)*60⌋` and
`s` the (Python, half-to-even) rounding of `((|deg|-d)*60 - m)*60*10^6`;
degrees and minutes are exact truncations, only the seconds numerator is
rounded, all three numerators are non-negative, and the seconds
denominator is fixed at 1000000. -/
theorem c2_deg_to_dms_rational (deg : ℚ) :
    deg_to_dms_rational deg =
      ((⌊|deg|⌋, 1),
       (⌊(|deg| - (⌊|deg|⌋ : ℚ)) * 60⌋, 1),
       (pyRound (((|deg| - (⌊|deg|⌋ : ℚ)) * 60 -
           (⌊(|deg| - (⌊|deg|⌋ : ℚ)) * 60⌋ : ℚ)) * 60 * 1000000), 1000000))
    ∧ 0 ≤ ⌊|deg|⌋
    ∧ 0 ≤ ⌊(|deg| - (⌊|deg|⌋ : ℚ)) * 60⌋
    ∧ 0 ≤ pyRound (((|deg| - (⌊|deg|⌋ : ℚ)) * 60 -
        (⌊(|deg| - (⌊|deg|⌋ : ℚ)) * 60⌋ : ℚ)) * 60 * 1000000) := by
  have hA : (0:ℚ) ≤ |deg| := abs_nonneg deg
  have hd : dms_d deg = ⌊|deg|⌋ := pyInt_of_nonneg hA
  have hmf0 : 0 ≤ dms_mfloat deg := by
    rw [dms_mfloat, hd]
    have := Int.floor_le |deg|
    nlinarith
  have hm : dms_m deg = ⌊dms_mfloat deg⌋ := pyInt_of_nonneg hmf0
  have hmf : dms_mfloat deg = (|deg| - (⌊|deg|⌋ : ℚ)) * 60 := by
    rw [dms_mfloat, hd]
  have hm2 : dms_m deg = ⌊(|deg| - (⌊|deg|⌋ : ℚ)) * 60⌋ := by rw [hm, hmf]
  refine ⟨?_, Int.floor_nonneg.2 hA, ?_, ?_⟩
  · rw [deg_to_dms_rational, dms_s, hd, hm2, hmf]
  · rw [← hm2, hm]
    exact Int.floor_nonneg.2 hmf0
  · rw [← hmf, ← hm]
    apply pyRound_nonneg
    have hfl := Int.floor_le (dms_mfloat deg)
    rw [← hm] at hfl
    nlinarith

/-- C5 counterexample: encoding altitude `0.019` m stores the magnitude
numerator `int(1.9) = 1` (truncation), while rounding to the nearest
centimeter would give `2`; the claim's `round(|alt|*100)` is therefore not
what the code stores. -/
theorem c5_counterexample :
    dictGet (build_gps_ifd 0 0 (some (19/1000)) none) GPSAltitude =
      some (.vTup [.vInt 1, .vInt 100])
    ∧ pyRound (|(19 : ℚ)/1000| * 100) = 2
    ∧ (1 : ℤ) ≠ 2 := by
  have habs : |(19 : ℚ)/1000| = 19/1000 := abs_of_pos (by norm_num)
  have hint : pyInt (|(19 : ℚ)/1000| * 100) = 1 := by
    rw [habs, pyInt]
    norm_num
  refine ⟨?_, ?_, by decide⟩
  · rw [build_gps_ifd_alt, hint]
  · rw [habs, pyRound]
    norm_num

/-- C5 (amended): for every present altitude, encode writes the altitude
reference tag `0` when the altitude is non-negative and `1` when it is
negative, and stores the magnitude as the fraction
`int(|alt| * 100) / 100` — truncation toward zero at centimeter
precision, not rounding to nearest. -/
theorem c5_altitude_encoding (lat lon a : ℚ) :
    dictGet (build_gps_ifd lat lon (some a) none) GPSAltitudeRef =
      some (.vInt (if a ≥ 0 then 0 else 1))
    ∧ dictGet (build_gps_ifd lat lon (some a) none) GPSAltitude =
      some (.vTup [.vInt (pyInt (|a| * 100)), .vInt 100]) :=
  ⟨build_gps_ifd_altRef lat lon a, build_gps_ifd_alt lat lon a⟩

/-- C10 counterexample: for altitude `-0.015` m the decoded altitude is
`0.01` (the truncated stored magnitude), which differs from `|−0.015|`;
so decode-of-encode does not yield `|a|` for every negative `a`. -/
theorem c10_counterexample :
    parse_gps [("GPS", build_gps_ifd 0 0 (some (-3/200)) none)] =
      .ok ⟨some 0, some 0, some (1/100), none, none⟩
    ∧ ((1 : ℚ)/100) ≠ |(-3 : ℚ)/200| := by
  have hzero : dmsBack (0 : ℚ) = 0 := by
    have h := @dmsBack_eval 0 0 0 0 0 (by norm_num) (by norm_num) (by norm_num)
      (by rw [pyRound]; norm_num)
    rw [h]
    norm_num
  have habs : |(-3 : ℚ)/200| = 3/200 := by
    rw [abs_of_neg (by norm_num)]
    norm_num
  have hint : pyInt (|(-3 : ℚ)/200| * 100) = 1 := by
    rw [habs, pyInt]
    norm_num
  constructor
  · rw [parse_gps_build]
    simp only [Option.map_some']
    rw [hzero, hint]
    norm_num
  · rw [habs]
    norm_num

/-- C10 (amended): decode never reads the altitude reference tag, so the
decoded altitude of an encoded fix with negative altitude `a` is the
stored non-negative magnitude `int(|a|*100)/100` — never the negative
`a` itself. -/
theorem c10_altitude_sign_discarded (lat lon a : ℚ) (h : a < 0) :
    ∃ la lo m : ℚ,
      parse_gps [("GPS", build_gps_ifd lat lon (some a) none)] =
        .ok ⟨some la, some lo, some m, none, none⟩
      ∧ m = ((pyInt (|a| * 100) : ℤ) : ℚ) / ((100 : ℤ) : ℚ)
      ∧ 0 ≤ m ∧ m ≠ a := by
  have h0 : (0:ℚ) ≤ |a| * 100 := by positivity
  have hm0 : (0:ℚ) ≤ ((pyInt (|a| * 100) : ℤ) : ℚ) / ((100 : ℤ) : ℚ) := by
    apply div_nonneg
    · exact_mod_cast pyInt_nonneg h0
    · norm_num
  refine ⟨if lat ≥ 0 then dmsBack lat else -dmsBack lat,
          if lon ≥ 0 then dmsBack lon else -dmsBack lon,
          ((pyInt (|a| * 100) : ℤ) : ℚ) / ((100 : ℤ) : ℚ),
          ?_, rfl, hm0, (h.trans_le hm0).ne'⟩
  exact parse_gps_build lat lon (some a)

/-- C10 witness: the amended theorem applied at altitude `-2.5` m. -/
theorem c10_witness :
    ∃ la lo m : ℚ,
      parse_gps [("GPS", build_gps_ifd 0 0 (some (-5/2)) none)] =
        .ok ⟨some la, some lo, some m, none, none⟩
      ∧ m = ((pyInt (|(-5 : ℚ)/2| * 100) : ℤ) : ℚ) / ((100 : ℤ) : ℚ)
      ∧ 0 ≤ m ∧ m ≠ (-5 : ℚ)/2 :=
  c10_altitude_sign_discarded 0 0 (-5/2) (by norm_num)

/-- C4: a stored rational with zero denominator makes the decoder's `rat`
helper fall into the `float(x)` branch with `x` still the tuple, which
raises `TypeError`; division by zero never occurs, but decoding such a
field fails instead of yielding the raw numerator. -/
theorem c4_zero_denominator_raises :
    rat (.vTup [.vInt 10, .vInt 0]) =
      .error "TypeError: float() argument must be a string or a real number, not tuple"
    ∧ parse_gps [("GPS",
        [(GPSLatitude, .vTup [.vTup [.vInt 10, .vInt 0],
                              .vTup [.vInt 0, .vInt 1],
                              .vTup [.vInt 0, .vInt 1]]),
         (GPSLatitudeRef, .vBytes "N")])] =
      .error "TypeError: float() argument must be a string or a real number, not tuple" :=
  ⟨rfl, rfl⟩

/-- C3 counterexample: a GPS group whose altitude tag holds the malformed
rational `(5, 0)` makes `parse_gps` raise (`float` of a tuple), so decode
is not error-free on every input group. -/
theorem c3_counterexample :
    parse_gps [("GPS", [(GPSAltitude, .vTup [.vInt 5, .vInt 0])])] =
      .error "TypeError: float() argument must be a string or a real number, not tuple" :=
  rfl

/-- C3 (amended): decode returns all fields absent for an empty or absent
GPS group without error, and an absent sub-field yields an absent value
for that field only while present well-formed fields still decode; but a
malformed present sub-field (e.g. a zero-denominator rational) raises,
aborting the decode. -/
theorem c3_decode_degrades_fieldwise :
    parse_gps [] = .ok ⟨none, none, none, none, none⟩
    ∧ parse_gps [("0th", [(0, .vInt 1)])] = .ok ⟨none, none, none, none, none⟩
    ∧ parse_gps [("GPS", [])] = .ok ⟨none, none, none, none, none⟩
    ∧ parse_gps [("GPS", [(GPSLatitude, dmsPyVal (1/2)),
                          (GPSLatitudeRef, .vBytes "N")])] =
        .ok ⟨some (dmsBack (1/2)), none, none, none, none⟩ :=
  ⟨rfl, rfl, rfl, rfl⟩

/-- C9: one write replaces the container's GPS group wholesale with the
freshly encoded group (the stored group IS the new group, so no prior GPS
tag survives), and every other group of a pre-existing container is left
unchanged. -/
theorem c9_gps_replaced_wholesale (b : ExifDict) (g : GpsGroup) (hb : b ≠ []) :
    dictGet (process_file_exif b g) "GPS" = some g
    ∧ ∀ k, k ≠ "GPS" → dictGet (process_file_exif b g) k = dictGet b k := by
  have hne : b.isEmpty = false := by
    cases b with
    | nil => exact absurd rfl hb
    | cons hd tl => rfl
  have hpe : process_file_exif b g = dictSet b "GPS" g := by
    rw [process_file_exif, hne]
    rfl
  rw [hpe]
  exact ⟨dictGet_dictSet_self b "GPS" g,
         fun k hk => dictGet_dictSet_ne b "GPS" k g hk⟩

/-- C9 witness: a concrete pre-existing container with an old GPS tag. -/
theorem c9_witness :
    dictGet (process_file_exif [("0th", [(6, .vInt 7)]), ("GPS", [(0, .vInt 1)])]
        [(1, .vBytes "N")]) "GPS" = some [(1, .vBytes "N")]
    ∧ dictGet (process_file_exif [("0th", [(6, .vInt 7)]), ("GPS", [(0, .vInt 1)])]
        [(1, .vBytes "N")]) "0th" = some [(6, .vInt 7)] := by
  have h := c9_gps_replaced_wholesale
    [("0th", [(6, .vInt 7)]), ("GPS", [(0, .vInt 1)])] [(1, .vBytes "N")]
    (by simp)
  exact ⟨h.1, (h.2 "0th" (by simp)).trans rfl⟩

lemma signed_back_close (q : ℚ) :
    |(if q ≥ 0 then dmsBack q else -dmsBack q) - q| ≤ 1/7200000000 := by
  by_cases h : q ≥ 0
  · rw [if_pos h]
    have hc := dmsBack_close q
    rwa [abs_of_nonneg h] at hc
  · rw [if_neg h]
    push_neg at h
    have hc := dmsBack_close q
    rw [abs_of_neg h, sub_neg_eq_add] at hc
    calc |-dmsBack q - q| = |dmsBack q + q| := by
          rw [show -dmsBack q - q = -(dmsBack q + q) by ring, abs_neg]
      _ ≤ 1/7200000000 := hc

/-- C1: for every latitude in `[-90,90]` and longitude in `[-180,180]`
(each a 7-decimal value), decoding the encoded GPS group recovers both
coordinates to within `1e-5` degrees; moreover, encoding the concrete fix
`(-33.8688, 151.2093)` writes reference bytes `S` and `E`, and decoding
recovers exactly that signed pair. -/
theorem c1_roundtrip (lat lon : ℚ) (nlat nlon : ℤ)
    (hlat7 : lat = (nlat : ℚ) / 10^7) (hlon7 : lon = (nlon : ℚ) / 10^7)
    (hlat90 : -90 ≤ lat ∧ lat ≤ 90) (hlon180 : -180 ≤ lon ∧ lon ≤ 180) :
    (∃ la lo : ℚ,
      parse_gps [("GPS", build_gps_ifd lat lon none none)] =
        .ok ⟨some la, some lo, none, none, none⟩
      ∧ |la - lat| ≤ 1/100000 ∧ |lo - lon| ≤ 1/100000)
    ∧ dictGet (build_gps_ifd (-338688/10000) (1512093/10000) none none)
        GPSLatitudeRef = some (.vBytes "S")
    ∧ dictGet (build_gps_ifd (-338688/10000) (1512093/10000) none none)
        GPSLongitudeRef = some (.vBytes "E")
    ∧ parse_gps [("GPS", build_gps_ifd (-338688/10000) (1512093/10000) none none)]
        = .ok ⟨some (-338688/10000), some (1512093/10000), none, none, none⟩ := by
  have hlatv : dmsBack (-338688/10000 : ℚ) = 338688/10000 := by
    have h := @dmsBack_eval (-338688/10000) (338688/10000) 33 52 7680000
      (by rw [abs_of_neg (by norm_num)]; norm_num) (by norm_num) (by norm_num)
      (by rw [pyRound]; norm_num)
    rw [h]
    norm_num
  have hlonv : dmsBack (1512093/10000 : ℚ) = 1512093/10000 := by
    have h := @dmsBack_eval (1512093/10000) (1512093/10000) 151 12 33480000
      (by rw [abs_of_pos (by norm_num)]) (by norm_num) (by norm_num)
      (by rw [pyRound]; norm_num)
    rw [h]
    norm_num
  refine ⟨⟨if lat ≥ 0 then dmsBack lat else -dmsBack lat,
           if lon ≥ 0 then dmsBack lon else -dmsBack lon,
           parse_gps_build lat lon none,
           le_trans (signed_back_close lat) (by norm_num),
           le_trans (signed_back_close lon) (by norm_num)⟩, ?_, ?_, ?_⟩
  · rw [build_gps_ifd_latRef, if_neg (by norm_num)]
  · rw [build_gps_ifd_lonRef, if_pos (by norm_num)]
  · rw [parse_gps_build, if_neg (by norm_num), if_pos (by norm_num),
      hlatv, hlonv]
    norm_num

/-- C1 witness: the round-trip theorem applied at the 7-decimal pair
`(0.5, -0.5)`. -/
theorem c1_roundtrip_witness :
    (∃ la lo : ℚ,
      parse_gps [("GPS", build_gps_ifd (1/2) (-1/2) none none)] =
        .ok ⟨some la, some lo, none, none, none⟩
      ∧ |la - 1/2| ≤ 1/100000 ∧ |lo - (-1/2)| ≤ 1/100000)
    ∧ dictGet (build_gps_ifd (-338688/10000) (1512093/10000) none none)
        GPSLatitudeRef = some (.vBytes "S")
    ∧ dictGet (build_gps_ifd (-338688/10000) (1512093/10000) none none)
        GPSLongitudeRef = some (.vBytes "E")
    ∧ parse_gps [("GPS", build_gps_ifd (-338688/10000) (1512093/10000) none none)]
        = .ok ⟨some (-338688/10000), some (1512093/10000), none, none, none⟩ :=
  c1_roundtrip (1/2) (-1/2) 5000000 (-5000000) (by norm_num) (by norm_num)
    ⟨by norm_num, by norm_num⟩ ⟨by norm_num, by norm_num⟩

/-- C6: the spec's DMS example `50°49'44.9" 4°22'13.9"` separates the two
tokens with a SINGLE space, which neither the DMS splitting regex
(`\s*[;,]\s*|\s{2,}`, requiring a separator or two-plus spaces) nor any
other rule matches, so `smart_parse_coords` raises `ValueError` instead
of returning the claimed pair; with a two-space separator the code does
return the claimed positive N/E-defaulted pair `(50.8291388…, 4.3705277…)`. -/
theorem c6_single_space_dms_fails :
    smart_parse_coords dmsPairSingleSpace =
      .error "ValueError: No se pudieron extraer coordenadas."
    ∧ smart_parse_coords dmsPairDoubleSpace =
      .ok (1829849/36000, 157339/36000) := by
  constructor
  · rfl
  · have h : smart_parse_coords dmsPairDoubleSpace =
        .ok (decimalVal 50 0 0 + decimalVal 49 0 0 / 60 + decimalVal 44 9 1 / 3600,
             decimalVal 4 0 0 + decimalVal 22 0 0 / 60 + decimalVal 13 9 1 / 3600) :=
      rfl
    rw [h]
    norm_num [decimalVal]

/-- C7: every pair the Parse-button handler accepts satisfies the range
bounds (validation runs before the pair is stored), `91, 0` and `0, 181`
are rejected with the range error even though the decimal pattern
matched, and the boundary pairs `90, 180` and `-90,-180` are accepted
with exactly those values. -/
theorem c7_range_validation :
    (∀ t : String, ∀ la lo : ℚ, parse_button t = .ok (la, lo) →
      -90 ≤ la ∧ la ≤ 90 ∧ -180 ≤ lo ∧ lo ≤ 180)
    ∧ parse_button "91, 0" = .error "ValueError: Fuera de rango."
    ∧ parse_button "0, 181" = .error "ValueError: Fuera de rango."
    ∧ parse_button "90, 180" = .ok (90, 180)
    ∧ parse_button "-90,-180" = .ok (-90, -180) := by
  refine ⟨?_, ?_, ?_, ?_, ?_⟩
  · intro t la lo h
    rw [parse_button] at h
    cases hsp : smart_parse_coords t with
    | error e => rw [hsp] at h; exact absurd h (by simp)
    | ok p =>
      obtain ⟨a, b⟩ := p
      rw [hsp] at h
      dsimp only at h
      by_cases hr : -90 ≤ a ∧ a ≤ 90 ∧ -180 ≤ b ∧ b ≤ 180
      · rw [if_neg (not_not_intro hr)] at h
        injection h with h2
        have h1 : pyRound7 a = la := congrArg Prod.fst h2
        have h3 : pyRound7 b = lo := congrArg Prod.snd h2
        obtain ⟨ha1, ha2, hb1, hb2⟩ := hr
        rw [← h1, ← h3]
        refine ⟨?_, ?_, ?_, ?_⟩
        · have := @int_le_pyRound7 (-90) a (by exact_mod_cast ha1)
          exact_mod_cast this
        · have := @pyRound7_le_int 90 a (by exact_mod_cast ha2)
          exact_mod_cast this
        · have := @int_le_pyRound7 (-180) b (by exact_mod_cast hb1)
          exact_mod_cast this
        · have := @pyRound7_le_int 180 b (by exact_mod_cast hb2)
          exact_mod_cast this
      · rw [if_pos hr] at h
        exact absurd h (by simp)
  · have h : smart_parse_coords "91, 0" =
        .ok (decimalVal 91 0 0, decimalVal 0 0 0) := rfl
    simp only [parse_button, h]
    rw [if_pos (by norm_num [decimalVal])]
  · have h : smart_parse_coords "0, 181" =
        .ok (decimalVal 0 0 0, decimalVal 181 0 0) := rfl
    simp only [parse_button, h]
    rw [if_pos (by norm_num [decimalVal])]
  · have h : smart_parse_coords "90, 180" =
        .ok (decimalVal 90 0 0, decimalVal 180 0 0) := rfl
    simp only [parse_button, h]
    rw [if_neg (by norm_num [decimalVal])]
    norm_num [pyRound7, pyRound, decimalVal]
  · have h : smart_parse_coords "-90,-180" =
        .ok (-decimalVal 90 0 0, -decimalVal 180 0 0) := rfl
    simp only [parse_button, h]
    rw [if_neg (by norm_num [decimalVal])]
    norm_num [pyRound7, pyRound, decimalVal]

/-- C7 witness: the acceptance implication applied at the accepted input
`10, 20`. -/
theorem c7_witness :
    parse_button "10, 20" = .ok (10, 20)
    ∧ (-90 ≤ (10:ℚ) ∧ (10:ℚ) ≤ 90 ∧ -180 ≤ (20:ℚ) ∧ (20:ℚ) ≤ 180) := by
  have hpb : parse_button "10, 20" = .ok (10, 20) := by
    have h : smart_parse_coords "10, 20" =
        .ok (decimalVal 10 0 0, decimalVal 20 0 0) := rfl
    simp only [parse_button, h]
    rw [if_neg (by norm_num [decimalVal])]
    norm_num [pyRound7, pyRound, decimalVal]
  exact ⟨hpb, c7_range_validation.1 "10, 20" 10 20 hpb⟩

/-- C8: the recognition rules run in the fixed order URL (`@` then `q=`),
decimal pair, DMS pair, and the first structural match wins; the example
URL is answered by the URL rule with `(50.5, 4.5)`. -/
theorem c8_rule_priority :
    (∀ t : String, ∀ p : ℚ × ℚ, (pyStrip t.data).isEmpty = false →
      _parse_google_maps_url t = some p → smart_parse_coords t = .ok p)
    ∧ (∀ t : String, ∀ p : ℚ × ℚ, (pyStrip t.data).isEmpty = false →
      _parse_google_maps_url t = none → _parse_decimal_pair t = some p →
      smart_parse_coords t = .ok p)
    ∧ (∀ t : String, ∀ p : ℚ × ℚ, (pyStrip t.data).isEmpty = false →
      _parse_google_maps_url t = none → _parse_decimal_pair t = none →
      _parse_dms t = some p → smart_parse_coords t = .ok p)
    ∧ _parse_google_maps_url "https://maps.example/@50.5,4.5,15z" =
        some (101/2, 9/2)
    ∧ smart_parse_coords "https://maps.example/@50.5,4.5,15z" =
        .ok (101/2, 9/2) := by
  refine ⟨?_, ?_, ?_, ?_, ?_⟩
  · intro t p he hu
    simp [smart_parse_coords, he, hu]
  · intro t p he hu hd
    simp [smart_parse_coords, he, hu, hd]
  · intro t p he hu hd hm
    simp [smart_parse_coords, he, hu, hd, hm]
  · have h : _parse_google_maps_url "https://maps.example/@50.5,4.5,15z" =
        some (decimalVal 50 5 1, decimalVal 4 5 1) := rfl
    rw [h]
    norm_num [decimalVal]
  · have h : smart_parse_coords "https://maps.example/@50.5,4.5,15z" =
        .ok (decimalVal 50 5 1, decimalVal 4 5 1) := rfl
    rw [h]
    norm_num [decimalVal]

/-- C8 witness: the priority implication applied at the example URL. -/
theorem c8_witness :
    smart_parse_coords "https://maps.example/@50.5,4.5,15z" =
      .ok (101/2, 9/2) :=
  c8_rule_priority.1 "https://maps.example/@50.5,4.5,15z" (101/2, 9/2) rfl
    c8_rule_priority.2.2.2.1
